import Mathlib

/-!
Verification of the discover-handler pipeline of `crates/agent/src/discovers.rs`.

We shallowly embed the data model (`JobStatus`, `DraftError`, the merged
`Catalog`) and the two central functions, `DiscoverHandler::process` and
`DiscoverHandler::build_merged_catalog`, as pure Lean functions.  External
collaborators (the SQL store, the subprocess runner, the `specs` merge
helpers) are modelled as an explicit environment of results and functions;
the database side effects performed by `process` (error insertion, spec
upserts, pruning, publication creation) are recorded in an `Effects` trace
so that claims about which effects occur on which branch can be stated.
Fatal (`anyhow`) errors are the `Except.error` branch; business outcomes are
`Except.ok` values, exactly as in the Rust `Result` discipline.
-/

namespace Flow.Discovers

/-- Job ids, draft ids, publication ids (`agent_sql` `Id`, a 64-bit flake id);
the claims only move them around, so a `Nat` suffices. -/
abbrev Id := Nat

/-- A minimal JSON value AST, the target of serde serialization. -/
inductive Json where
  | str : String → Json
  | num : Nat → Json
  | bool : Bool → Json
  | obj : List (String × Json) → Json

/-- `draft::Error`: a user-facing draft error row
(catalog name, optional location scope, human-readable detail). -/
structure DraftError where
  catalog_name : String
  scope : Option String
  detail : String
deriving DecidableEq

/-- `JobStatus`: the closed set of terminal outcomes of a handled discover
operation (`discovers.rs` lines 11-28). -/
inductive JobStatus where
  | Queued
  | WrongProtocol
  | TagFailed
  | ImageForbidden
  | PullFailed
  | DiscoverFailed
  | MergeFailed
  | Success (publication_id : Option Id) (specs_unchanged : Bool)
deriving DecidableEq

/-- Serialization of `JobStatus` per its serde derive:
`#[serde(rename_all = "camelCase", tag = "type")]` makes an internally
tagged record whose `"type"` field carries the camelCased variant name;
on `Success`, `publication_id` carries
`#[serde(skip_serializing_if = "Option::is_none")]` and `specs_unchanged`
carries `#[serde(skip_serializing_if = "std::ops::Not::not")]`, so the
former is omitted when `None` and the latter when `false`. -/
def JobStatus.toJson : JobStatus → Json
  | .Queued => .obj [("type", .str "queued")]
  | .WrongProtocol => .obj [("type", .str "wrongProtocol")]
  | .TagFailed => .obj [("type", .str "tagFailed")]
  | .ImageForbidden => .obj [("type", .str "imageForbidden")]
  | .PullFailed => .obj [("type", .str "pullFailed")]
  | .DiscoverFailed => .obj [("type", .str "discoverFailed")]
  | .MergeFailed => .obj [("type", .str "mergeFailed")]
  | .Success publication_id specs_unchanged =>
      .obj (("type", .str "success")
        :: (match publication_id with
            | none => []
            | some i => [("publication_id", .num i)])
        ++ (if specs_unchanged then [("specs_unchanged", .bool true)] else []))

/-- The key set of a serialized object (the field names of the record). -/
def Json.keys : Json → List String
  | .obj fields => fields.map Prod.fst
  | _ => []

/-- Is `b` a UTF-8 continuation byte (`0x80..=0xBF`)? -/
def isCont (b : Nat) : Bool := 0x80 ≤ b && b ≤ 0xBF

/-- The scalar value of a 2-byte sequence. -/
def cp2 (b0 b1 : Nat) : Nat := (b0 - 0xC0) * 0x40 + (b1 - 0x80)

/-- The scalar value of a 3-byte sequence. -/
def cp3 (b0 b1 b2 : Nat) : Nat :=
  (b0 - 0xE0) * 0x1000 + (b1 - 0x80) * 0x40 + (b2 - 0x80)

/-- The scalar value of a 4-byte sequence. -/
def cp4 (b0 b1 b2 b3 : Nat) : Nat :=
  (b0 - 0xF0) * 0x40000 + (b1 - 0x80) * 0x1000 + (b2 - 0x80) * 0x40 + (b3 - 0x80)

/-- UTF-8 validation and decoding of a byte sequence, as performed by Rust's
`String::from_utf8`: rejects stray continuation bytes, overlong encodings,
surrogate code points and values above `0x10FFFF`; returns the decoded
scalar values on success. -/
def utf8Decode : List Nat → Option (List Nat)
  | [] => some []
  | b0 :: rest =>
    if b0 < 0x80 then
      (utf8Decode rest).map (b0 :: ·)
    else if 0xC2 ≤ b0 && b0 ≤ 0xDF then
      match rest with
      | b1 :: rest2 =>
        if isCont b1 then (utf8Decode rest2).map (cp2 b0 b1 :: ·) else none
      | [] => none
    else if b0 == 0xE0 then
      match rest with
      | b1 :: b2 :: rest2 =>
        if (0xA0 ≤ b1 && b1 ≤ 0xBF) && isCont b2 then
          (utf8Decode rest2).map (cp3 b0 b1 b2 :: ·)
        else none
      | _ => none
    else if (0xE1 ≤ b0 && b0 ≤ 0xEC) || b0 == 0xEE || b0 == 0xEF then
      match rest with
      | b1 :: b2 :: rest2 =>
        if isCont b1 && isCont b2 then
          (utf8Decode rest2).map (cp3 b0 b1 b2 :: ·)
        else none
      | _ => none
    else if b0 == 0xED then
      match rest with
      | b1 :: b2 :: rest2 =>
        if (0x80 ≤ b1 && b1 ≤ 0x9F) && isCont b2 then
          (utf8Decode rest2).map (cp3 b0 b1 b2 :: ·)
        else none
      | _ => none
    else if b0 == 0xF0 then
      match rest with
      | b1 :: b2 :: b3 :: rest2 =>
        if (0x90 ≤ b1 && b1 ≤ 0xBF) && isCont b2 && isCont b3 then
          (utf8Decode rest2).map (cp4 b0 b1 b2 b3 :: ·)
        else none
      | _ => none
    else if 0xF1 ≤ b0 && b0 ≤ 0xF3 then
      match rest with
      | b1 :: b2 :: b3 :: rest2 =>
        if isCont b1 && isCont b2 && isCont b3 then
          (utf8Decode rest2).map (cp4 b0 b1 b2 b3 :: ·)
        else none
      | _ => none
    else if b0 == 0xF4 then
      match rest with
      | b1 :: b2 :: b3 :: rest2 =>
        if (0x80 ≤ b1 && b1 ≤ 0x8F) && isCont b2 && isCont b3 then
          (utf8Decode rest2).map (cp4 b0 b1 b2 b3 :: ·)
        else none
      | _ => none
    else none

/-- `CatalogType` (spec type of a resolved row): this pipeline only resolves
captures and collections. -/
inductive CatalogType where
  | capture
  | collection
deriving DecidableEq

/-- `models::CaptureBinding` as used by `build_merged_catalog`: the merge only
reads the `target` collection name of each binding; the resource
configuration travels along opaquely. -/
structure CaptureBinding where
  resource : String
  target : String
deriving DecidableEq

/-- A merged capture specification: the merge logic only traverses its
`bindings`; endpoint and remaining fields travel along opaquely. -/
structure CaptureSpec where
  endpoint : String
  bindings : List CaptureBinding
deriving DecidableEq

/-- A collection specification body, opaque to this pipeline. -/
abbrev CollectionSpec := String

/-- `models::Catalog` restricted to the partitions this pipeline builds.
Modelled from the spec: the `models` catalog type itself is not under
`src/`; per §3 it is a mapping from catalog name to typed specification,
partitioned into captures and collections, here as association lists. -/
structure Catalog where
  captures : List (String × CaptureSpec)
  collections : List (String × CollectionSpec)
deriving DecidableEq

instance : Inhabited Catalog := ⟨⟨[], []⟩⟩

/-- `models::Catalog::spec_count`. Modelled from the spec: its source is not
under `src/`; it is the number of drafted specs of the catalog, i.e. the
total size of its partitions. -/
def Catalog.spec_count (c : Catalog) : Nat :=
  c.captures.length + c.collections.length

/-- A row of `resolve_merge_target_specs`: the authoritative current spec for
one catalog name (draft version if present, else live), as raw JSON text. -/
structure ResolvedSpecRow where
  catalog_name : String
  spec : String

/-- The endpoint descriptor produced by `specs::parse_response`, opaque here. -/
abbrev Endpoint := String

/-- `specs::DiscoveredBinding`: one resource reported by discovery. The merge
collaborators consume it opaquely, so the fields travel along unchanged. -/
structure DiscoveredBinding where
  recommended_name : String
  key : List String
  document_schema : String
  resource_config : String

/-- The collaborators invoked by `build_merged_catalog`, modelled as the
functions the Rust code calls: `specs::parse_response`,
`resolve_merge_target_specs` (one map per spec type, keyed by the requested
names), `draft::extend_catalog`, `fetch_resource_path_pointers`,
`specs::merge_capture` and `specs::merge_collections`.  Arguments fixed at
the call site (image name/tag, draft id, user id, endpoint config, the
transaction) are pre-applied. -/
structure MergeCollabs where
  parse_response : List Nat → Except String (Endpoint × List DiscoveredBinding)
  resolve_specs : List String → CatalogType → List ResolvedSpecRow
  extend_catalog : Catalog → List (CatalogType × String × String) → Catalog × List DraftError
  resource_path_pointers : List String
  merge_capture : String → Endpoint → List DiscoveredBinding → Option CaptureSpec →
    Bool → List String → Except String (CaptureSpec × List DiscoveredBinding)
  merge_collections : List DiscoveredBinding → List (String × CollectionSpec) →
    List String → List (String × CollectionSpec)

/-- Observable record of the resolution calls `build_merged_catalog` makes:
which names were passed to each `resolve_merge_target_specs` call, and the
merged capture returned by `merge_capture` (when reached). -/
structure BuildTrace where
  captureResolveNames : Option (List String)
  collectionResolveNames : Option (List String)
  mergedCapture : Option CaptureSpec

/-- `DiscoverHandler::build_merged_catalog` (`discovers.rs` lines 236-344),
returning the Rust `Result<Result<Catalog, Vec<draft::Error>>>` as a nested
`Except`, paired with the trace of resolution calls performed. -/
def build_merged_catalog (capture_name : String) (discover_output : List Nat)
    (update_only : Bool) (c : MergeCollabs) :
    Except String (Except (List DraftError) Catalog) × BuildTrace :=
  match c.parse_response discover_output with
  | .error e => (.error e, ⟨none, none, none⟩)
  | .ok (endpoint, discovered_bindings) =>
    let catalog : Catalog := default
    let resolved := c.resolve_specs [capture_name] CatalogType.capture
    let (catalog, errors) := c.extend_catalog catalog
      (resolved.map fun r => (CatalogType.capture, capture_name, r.spec))
    if errors ≠ [] then
      (.ok (.error errors), ⟨some [capture_name], none, none⟩)
    else
      let resource_path_pointers := c.resource_path_pointers
      let merge_result := c.merge_capture capture_name endpoint discovered_bindings
        (catalog.captures.lookup capture_name) update_only resource_path_pointers
      match merge_result with
      | .error invalid_resource =>
        (.ok (.error [⟨capture_name, none, invalid_resource⟩]),
          ⟨some [capture_name], none, none⟩)
      | .ok (merged_capture, discovered_bindings) =>
        let targets := merged_capture.bindings.map CaptureBinding.target
        let catalog : Catalog :=
          { catalog with captures :=
              (catalog.captures.filter fun kv => kv.1 ≠ capture_name)
              ++ [(capture_name, merged_capture)] }
        let resolved := c.resolve_specs targets CatalogType.collection
        let (catalog, errors) := c.extend_catalog catalog
          (resolved.map fun r => (CatalogType.collection, r.catalog_name, r.spec))
        let trace : BuildTrace := ⟨some [capture_name], some targets, some merged_capture⟩
        if errors ≠ [] then
          (.ok (.error errors), trace)
        else
          let catalog : Catalog :=
            { catalog with collections :=
                c.merge_collections discovered_bindings catalog.collections targets }
          (.ok (.ok catalog), trace)

/-- `connector_tags::LOCAL_IMAGE_TAG`. Modelled from the spec: the
`connector_tags` module is not under `src/`; per §4.2 it is the designated
tag indicating a pre-existing local image, for which the pull is skipped.
Only equality of the row's tag with this constant is ever consulted. -/
def LOCAL_IMAGE_TAG : String := ":local"

/-- The string of a list of Unicode scalar values, as produced by Rust's
`String::from_utf8` after successful validation. -/
def stringOfScalars (cs : List Nat) : String := ⟨cs.map Char.ofNat⟩

/-- `agent_sql::discovers::Row`: one dequeued discover job. -/
structure Row where
  id : Id
  capture_name : String
  connector_tag_id : Id
  connector_tag_job_success : Bool
  created_at : Nat
  draft_id : Id
  endpoint_config : String
  image_name : String
  image_tag : String
  logs_token : Nat
  protocol : String
  updated_at : Nat
  user_id : Nat
  auto_publish : Bool
  auto_evolve : Bool
  update_only : Bool

/-- The environment of one `process` attempt: results of the external calls
the handler makes, in the successful-infrastructure case (infrastructure
failures abort the attempt wholesale and are outside the claims'
branches): `does_connector_exist`, the pull outcome, the discover outcome
and its captured output bytes, the merge collaborators, the list returned
by `prune_unchanged_draft_specs`, and the id minted by
`publications::create`. -/
structure Env where
  connector_exists : Bool
  pull_ok : Bool
  discover_ok : Bool
  discover_output : List Nat
  mergeCollabs : MergeCollabs
  pruned_specs : List String
  publication_id : Id

/-- The database/subprocess side effects `process` performs, recorded so that
claims about which effects occur on which branch are statable. -/
structure Effects where
  pull_run : Bool
  deleted_prior_errors : Bool
  discover_run : Bool
  inserted_errors : List DraftError
  upserted_specs : Bool
  pruned : Bool
  publication_created : Bool

/-- No side effects performed yet. -/
def noEffects : Effects := ⟨false, false, false, [], false, false, false⟩

/-- Fatal (`anyhow`) errors `process` itself can raise on the modelled
branches: non-UTF-8 discover failure output (`discovers.rs` line 150), and
a failure of `specs::parse_response` inside `build_merged_catalog`. -/
inductive Fatal where
  | discoverOutputNotUtf8
  | mergeFatal (msg : String)

/-- The tail of `DiscoverHandler::process` after the pull step
(`discovers.rs` lines 122-233): clear prior draft errors, run discovery,
then merge, persist, and optionally prune and auto-publish. `pull_run`
records whether the pull subprocess was executed on the way here. -/
def processAfterPull (row : Row) (env : Env) (pull_run : Bool) :
    Except Fatal (Id × JobStatus) × Effects :=
  let base : Effects :=
    { pull_run := pull_run, deleted_prior_errors := true, discover_run := true,
      inserted_errors := [], upserted_specs := false, pruned := false,
      publication_created := false }
  if !env.discover_ok then
    match utf8Decode env.discover_output with
    | none => (.error .discoverOutputNotUtf8, base)
    | some text =>
      let error : DraftError := ⟨row.capture_name, none, stringOfScalars text⟩
      (.ok (row.id, .DiscoverFailed), { base with inserted_errors := [error] })
  else
    match (build_merged_catalog row.capture_name env.discover_output
        row.update_only env.mergeCollabs).1 with
    | .error msg => (.error (.mergeFatal msg), base)
    | .ok (.error errors) =>
      (.ok (row.id, .MergeFailed), { base with inserted_errors := errors })
    | .ok (.ok catalog) =>
      let drafted_spec_count := catalog.spec_count
      let upserted : Effects := { base with upserted_specs := true }
      if row.auto_publish then
        let eff : Effects := { upserted with pruned := true }
        if env.pruned_specs.length = drafted_spec_count then
          (.ok (row.id, .Success none true), eff)
        else
          (.ok (row.id, .Success (some env.publication_id) false),
            { eff with publication_created := true })
      else
        (.ok (row.id, .Success none false), upserted)

/-- `DiscoverHandler::process` (`discovers.rs` lines 72-234): pre-flight
checks, optional image pull, then `processAfterPull`. Returns the
`(id, JobStatus)` business outcome (or a fatal error) together with the
side effects performed. -/
def process (row : Row) (env : Env) : Except Fatal (Id × JobStatus) × Effects :=
  if !row.connector_tag_job_success then
    (.ok (row.id, .TagFailed), noEffects)
  else if row.protocol ≠ "capture" then
    (.ok (row.id, .WrongProtocol), noEffects)
  else if !env.connector_exists then
    (.ok (row.id, .ImageForbidden), noEffects)
  else if row.image_tag ≠ LOCAL_IMAGE_TAG then
    if !env.pull_ok then
      (.ok (row.id, .PullFailed), { noEffects with pull_run := true })
    else
      processAfterPull row env true
  else
    processAfterPull row env false

/-- A concrete capture spec used to exercise the pipeline on closed inputs. -/
def mcSample : CaptureSpec := ⟨"ep", [⟨"res", "acct/target"⟩]⟩

/-- Concrete merge collaborators whose merge succeeds. -/
def sampleCollabs : MergeCollabs :=
  { parse_response := fun _ => .ok ("ep", [])
    resolve_specs := fun _ _ => []
    extend_catalog := fun cat _ => (cat, [])
    resource_path_pointers := ["/table"]
    merge_capture := fun _ _ _ _ _ _ => .ok (mcSample, [])
    merge_collections := fun _ cols _ => cols }

/-- Concrete merge collaborators whose `merge_capture` fails. -/
def failCollabs : MergeCollabs :=
  { sampleCollabs with merge_capture := fun _ _ _ _ _ _ => .error "boom" }

/-- A concrete job row on the happy path. -/
def sampleRow : Row :=
  { id := 7, capture_name := "acct/cap", connector_tag_id := 1
    connector_tag_job_success := true, created_at := 0, draft_id := 3
    endpoint_config := "cfg", image_name := "img", image_tag := ":v1"
    logs_token := 11, protocol := "capture", updated_at := 0, user_id := 5
    auto_publish := false, auto_evolve := false, update_only := false }

/-- A concrete environment on the happy path. -/
def sampleEnv : Env :=
  { connector_exists := true, pull_ok := true, discover_ok := true
    discover_output := [], mergeCollabs := sampleCollabs
    pruned_specs := [], publication_id := 42 }

/-- A concrete row whose tagging failed and whose protocol is not "capture". -/
def rowTagFailWrongProto : Row :=
  { sampleRow with connector_tag_job_success := false, protocol := "materialization" }

/-- A failed tagging step short-circuits to `TagFailed` with no effects. -/
lemma process_tagFailed (row : Row) (env : Env)
    (h : row.connector_tag_job_success = false) :
    process row env = (.ok (row.id, .TagFailed), noEffects) := by
  simp [process, h]

/-- With tag success, a protocol other than "capture" short-circuits to
`WrongProtocol` with no effects. -/
lemma process_wrongProtocol (row : Row) (env : Env)
    (h1 : row.connector_tag_job_success = true) (h2 : row.protocol ≠ "capture") :
    process row env = (.ok (row.id, .WrongProtocol), noEffects) := by
  simp [process, h1, h2]

/-- With tag success and protocol "capture", an unregistered image
short-circuits to `ImageForbidden` with no effects. -/
lemma process_imageForbidden (row : Row) (env : Env)
    (h1 : row.connector_tag_job_success = true) (h2 : row.protocol = "capture")
    (h3 : env.connector_exists = false) :
    process row env = (.ok (row.id, .ImageForbidden), noEffects) := by
  simp [process, h1, h2, h3]

/-- C3: for every job row with `connector_tag_job_success = false`, `process`
returns status `TagFailed` regardless of every other field of the row (and
of the environment), performing no side effect. -/
theorem c3_tag_failed_short_circuits (row : Row) (env : Env)
    (h : row.connector_tag_job_success = false) :
    process row env = (.ok (row.id, .TagFailed), noEffects) :=
  process_tagFailed row env h

/-- Witness for C3 at a concrete row whose tagging failed. -/
theorem c3_witness :
    process { sampleRow with connector_tag_job_success := false } sampleEnv
      = (.ok (7, .TagFailed), noEffects) :=
  c3_tag_failed_short_circuits { sampleRow with connector_tag_job_success := false }
    sampleEnv rfl

/-- C4 counterexample: a row with `protocol ≠ "capture"` whose tagging step
failed is mapped to `TagFailed`, not `WrongProtocol` — the claim's
"regardless of other fields including connector_tag_job_success" is false
on the code, which checks tag success first. -/
theorem c4_counterexample :
    (process rowTagFailWrongProto sampleEnv).1 ≠ .ok (7, JobStatus.WrongProtocol)
    ∧ (process rowTagFailWrongProto sampleEnv).1 = .ok (7, JobStatus.TagFailed) := by
  have h2 := process_tagFailed rowTagFailWrongProto sampleEnv rfl
  constructor
  · intro h
    rw [h2] at h
    simp at h
  · rw [h2]
    rfl

/-- C4 amended: for every job row with `connector_tag_job_success = true` and
protocol ≠ "capture", `process` returns `WrongProtocol` regardless of every
other field, performing no side effect. -/
theorem c4_wrong_protocol_after_tag_check (row : Row) (env : Env)
    (h1 : row.connector_tag_job_success = true) (h2 : row.protocol ≠ "capture") :
    process row env = (.ok (row.id, .WrongProtocol), noEffects) :=
  process_wrongProtocol row env h1 h2

/-- Witness for the amended C4 at a concrete row. -/
theorem c4_witness :
    process { sampleRow with protocol := "materialization" } sampleEnv
      = (.ok (7, .WrongProtocol), noEffects) :=
  c4_wrong_protocol_after_tag_check { sampleRow with protocol := "materialization" }
    sampleEnv rfl (by decide)

/-- C5: with tag success and protocol "capture", an unregistered connector
image yields `ImageForbidden` with no side effect (in particular neither
pull nor discover subprocess runs); and the three pre-flight checks apply
in the order tag-success, protocol, image-registered, each returning its
status with no side effect performed. -/
theorem c5_image_forbidden_order (row : Row) (env : Env)
    (h1 : row.connector_tag_job_success = true) (h2 : row.protocol = "capture")
    (h3 : env.connector_exists = false) :
    process row env = (.ok (row.id, .ImageForbidden), noEffects)
    ∧ (∀ r : Row, ∀ e : Env, r.connector_tag_job_success = false →
        process r e = (.ok (r.id, .TagFailed), noEffects))
    ∧ (∀ r : Row, ∀ e : Env, r.connector_tag_job_success = true → r.protocol ≠ "capture" →
        process r e = (.ok (r.id, .WrongProtocol), noEffects)) :=
  ⟨process_imageForbidden row env h1 h2 h3,
   fun r e h => process_tagFailed r e h,
   fun r e ha hb => process_wrongProtocol r e ha hb⟩

/-- Witness for C5 at a concrete row with an unregistered image. -/
theorem c5_witness :
    process sampleRow { sampleEnv with connector_exists := false }
      = (.ok (7, .ImageForbidden), noEffects) :=
  (c5_image_forbidden_order sampleRow { sampleEnv with connector_exists := false }
    rfl rfl rfl).1

/-- Once the three pre-flight checks pass and the pull step does not fail
(skipped for the local tag, or successful), `process` continues with
`processAfterPull`, recording whether a pull ran. -/
lemma process_reaches_afterPull (row : Row) (env : Env)
    (h1 : row.connector_tag_job_success = true) (h2 : row.protocol = "capture")
    (h3 : env.connector_exists = true)
    (h4 : row.image_tag = LOCAL_IMAGE_TAG ∨ env.pull_ok = true) :
    process row env = processAfterPull row env (row.image_tag != LOCAL_IMAGE_TAG) := by
  by_cases h5 : row.image_tag = LOCAL_IMAGE_TAG
  · simp [process, h1, h2, h3, h5]
  · rcases h4 with h4 | h4
    · exact absurd h4 h5
    · have hb : (row.image_tag != LOCAL_IMAGE_TAG) = true := by
        simp [bne_iff_ne, h5]
      simp [process, h1, h2, h3, h4, h5, hb]

/-- A non-success discover outcome with UTF-8 output yields `DiscoverFailed`
and inserts exactly one error carrying the decoded output. -/
lemma processAfterPull_discoverFailed (row : Row) (env : Env) (pr : Bool)
    (text : List Nat) (hd : env.discover_ok = false)
    (hu : utf8Decode env.discover_output = some text) :
    processAfterPull row env pr = (.ok (row.id, .DiscoverFailed),
      { pull_run := pr, deleted_prior_errors := true, discover_run := true,
        inserted_errors := [⟨row.capture_name, none, stringOfScalars text⟩],
        upserted_specs := false, pruned := false, publication_created := false }) := by
  simp [processAfterPull, hd, hu]

/-- A non-success discover outcome with non-UTF-8 output raises a fatal
error instead of reaching the `DiscoverFailed` status. -/
lemma processAfterPull_nonUtf8 (row : Row) (env : Env) (pr : Bool)
    (hd : env.discover_ok = false) (hu : utf8Decode env.discover_output = none) :
    processAfterPull row env pr = (.error .discoverOutputNotUtf8,
      { pull_run := pr, deleted_prior_errors := true, discover_run := true,
        inserted_errors := [], upserted_specs := false, pruned := false,
        publication_created := false }) := by
  simp [processAfterPull, hd, hu]

/-- A merge failure inserts exactly the accumulated errors and returns
`MergeFailed`, with no upsert, no prune and no publication. -/
lemma processAfterPull_mergeFailed (row : Row) (env : Env) (pr : Bool)
    (errors : List DraftError) (hd : env.discover_ok = true)
    (hm : (build_merged_catalog row.capture_name env.discover_output
        row.update_only env.mergeCollabs).1 = .ok (.error errors)) :
    processAfterPull row env pr = (.ok (row.id, .MergeFailed),
      { pull_run := pr, deleted_prior_errors := true, discover_run := true,
        inserted_errors := errors, upserted_specs := false, pruned := false,
        publication_created := false }) := by
  simp [processAfterPull, hd, hm]

/-- A successful merge upserts the catalog and then follows the publication
policy driven by `auto_publish` and the prune count. -/
lemma processAfterPull_success (row : Row) (env : Env) (pr : Bool)
    (catalog : Catalog) (hd : env.discover_ok = true)
    (hm : (build_merged_catalog row.capture_name env.discover_output
        row.update_only env.mergeCollabs).1 = .ok (.ok catalog)) :
    processAfterPull row env pr =
      (if row.auto_publish then
        if env.pruned_specs.length = catalog.spec_count then
          (.ok (row.id, .Success none true),
            { pull_run := pr, deleted_prior_errors := true, discover_run := true,
              inserted_errors := [], upserted_specs := true, pruned := true,
              publication_created := false })
        else
          (.ok (row.id, .Success (some env.publication_id) false),
            { pull_run := pr, deleted_prior_errors := true, discover_run := true,
              inserted_errors := [], upserted_specs := true, pruned := true,
              publication_created := true })
      else
        (.ok (row.id, .Success none false),
          { pull_run := pr, deleted_prior_errors := true, discover_run := true,
            inserted_errors := [], upserted_specs := true, pruned := false,
            publication_created := false })) := by
  simp only [processAfterPull, hd, Bool.not_true, hm]
  rfl

/-- C1: on any job whose merge step returns accumulated `DraftError`s,
`process` inserts exactly those errors, returns `MergeFailed`, and never
reaches catalog persistence: no specs are upserted, nothing is pruned and
no publication is created. -/
theorem c1_merge_failed_persists_only_errors (row : Row) (env : Env)
    (errors : List DraftError)
    (h1 : row.connector_tag_job_success = true) (h2 : row.protocol = "capture")
    (h3 : env.connector_exists = true)
    (h4 : row.image_tag = LOCAL_IMAGE_TAG ∨ env.pull_ok = true)
    (h5 : env.discover_ok = true)
    (h6 : (build_merged_catalog row.capture_name env.discover_output
        row.update_only env.mergeCollabs).1 = .ok (.error errors)) :
    process row env = (.ok (row.id, .MergeFailed),
      { pull_run := row.image_tag != LOCAL_IMAGE_TAG, deleted_prior_errors := true,
        discover_run := true, inserted_errors := errors, upserted_specs := false,
        pruned := false, publication_created := false }) := by
  rw [process_reaches_afterPull row env h1 h2 h3 h4]
  exact processAfterPull_mergeFailed row env _ errors h5 h6

/-- Witness for C1: a concrete row and environment where `merge_capture`
fails, yielding `MergeFailed` with exactly the one accumulated error. -/
theorem c1_witness :
    process sampleRow { sampleEnv with mergeCollabs := failCollabs }
      = (.ok (7, .MergeFailed),
        { pull_run := true, deleted_prior_errors := true, discover_run := true,
          inserted_errors := [⟨"acct/cap", none, "boom"⟩], upserted_specs := false,
          pruned := false, publication_created := false }) :=
  c1_merge_failed_persists_only_errors sampleRow
    { sampleEnv with mergeCollabs := failCollabs } [⟨"acct/cap", none, "boom"⟩]
    rfl rfl rfl (Or.inr rfl) rfl rfl

/-- C6: on a non-success discover outcome with UTF-8 diagnostic output,
`process` returns the outcome value `DiscoverFailed` (not a raised error)
and inserts exactly one `DraftError` whose catalog name is the row's
capture name, whose scope is absent, and whose detail is the decoded
output text. -/
theorem c6_discover_failed_inserts_one_error (row : Row) (env : Env)
    (text : List Nat)
    (h1 : row.connector_tag_job_success = true) (h2 : row.protocol = "capture")
    (h3 : env.connector_exists = true)
    (h4 : row.image_tag = LOCAL_IMAGE_TAG ∨ env.pull_ok = true)
    (h5 : env.discover_ok = false)
    (h6 : utf8Decode env.discover_output = some text) :
    process row env = (.ok (row.id, .DiscoverFailed),
      { pull_run := row.image_tag != LOCAL_IMAGE_TAG, deleted_prior_errors := true,
        discover_run := true,
        inserted_errors := [⟨row.capture_name, none, stringOfScalars text⟩],
        upserted_specs := false, pruned := false, publication_created := false }) := by
  rw [process_reaches_afterPull row env h1 h2 h3 h4]
  exact processAfterPull_discoverFailed row env _ text h5 h6

/-- Witness for C6: a concrete discover failure with output bytes "hi". -/
theorem c6_witness :
    process sampleRow
        { sampleEnv with discover_ok := false, discover_output := [104, 105] }
      = (.ok (7, .DiscoverFailed),
        { pull_run := true, deleted_prior_errors := true, discover_run := true,
          inserted_errors := [⟨"acct/cap", none, "hi"⟩], upserted_specs := false,
          pruned := false, publication_created := false }) :=
  c6_discover_failed_inserts_one_error sampleRow
    { sampleEnv with discover_ok := false, discover_output := [104, 105] }
    [104, 105] rfl rfl rfl (Or.inr rfl) rfl rfl

/-- C10: on a non-success discover outcome whose captured output bytes are
not valid UTF-8, `process` does not return `DiscoverFailed`: it raises a
fatal error (aborting the attempt), inserting no `DraftError`. -/
theorem c10_non_utf8_discover_output_fatal (row : Row) (env : Env)
    (h1 : row.connector_tag_job_success = true) (h2 : row.protocol = "capture")
    (h3 : env.connector_exists = true)
    (h4 : row.image_tag = LOCAL_IMAGE_TAG ∨ env.pull_ok = true)
    (h5 : env.discover_ok = false)
    (h6 : utf8Decode env.discover_output = none) :
    process row env = (.error .discoverOutputNotUtf8,
      { pull_run := row.image_tag != LOCAL_IMAGE_TAG, deleted_prior_errors := true,
        discover_run := true, inserted_errors := [], upserted_specs := false,
        pruned := false, publication_created := false }) := by
  rw [process_reaches_afterPull row env h1 h2 h3 h4]
  exact processAfterPull_nonUtf8 row env _ h5 h6

/-- Witness for C10: a concrete discover failure whose single output byte
`0xFF` is not valid UTF-8. -/
theorem c10_witness :
    process sampleRow
        { sampleEnv with discover_ok := false, discover_output := [255] }
      = (.error .discoverOutputNotUtf8,
        { pull_run := true, deleted_prior_errors := true, discover_run := true,
          inserted_errors := [], upserted_specs := false, pruned := false,
          publication_created := false }) :=
  c10_non_utf8_discover_output_fatal sampleRow
    { sampleEnv with discover_ok := false, discover_output := [255] }
    rfl rfl rfl (Or.inr rfl) rfl rfl

/-- C2: on a successfully merged job, `specs_unchanged = true` exactly when
`auto_publish` is set and the prune removed as many specs as were drafted,
in which case `publication_id` is `none` and no publication is created;
with `auto_publish` set and a non-total prune, a publication is created
and `Success (some id) false` returned; without `auto_publish`, the result
is `Success none false` with no pruning and no publication. -/
theorem c2_success_publication_policy (row : Row) (env : Env) (catalog : Catalog)
    (h1 : row.connector_tag_job_success = true) (h2 : row.protocol = "capture")
    (h3 : env.connector_exists = true)
    (h4 : row.image_tag = LOCAL_IMAGE_TAG ∨ env.pull_ok = true)
    (h5 : env.discover_ok = true)
    (h6 : (build_merged_catalog row.capture_name env.discover_output
        row.update_only env.mergeCollabs).1 = .ok (.ok catalog)) :
    process row env =
      (if row.auto_publish then
        if env.pruned_specs.length = catalog.spec_count then
          (.ok (row.id, .Success none true),
            { pull_run := row.image_tag != LOCAL_IMAGE_TAG, deleted_prior_errors := true,
              discover_run := true, inserted_errors := [], upserted_specs := true,
              pruned := true, publication_created := false })
        else
          (.ok (row.id, .Success (some env.publication_id) false),
            { pull_run := row.image_tag != LOCAL_IMAGE_TAG, deleted_prior_errors := true,
              discover_run := true, inserted_errors := [], upserted_specs := true,
              pruned := true, publication_created := true })
      else
        (.ok (row.id, .Success none false),
          { pull_run := row.image_tag != LOCAL_IMAGE_TAG, deleted_prior_errors := true,
            discover_run := true, inserted_errors := [], upserted_specs := true,
            pruned := false, publication_created := false })) := by
  rw [process_reaches_afterPull row env h1 h2 h3 h4]
  exact processAfterPull_success row env _ catalog h5 h6

/-- The catalog produced by `build_merged_catalog` on the sample
collaborators: the merged capture alone, no collections. -/
def catSample : Catalog := ⟨[("acct/cap", mcSample)], []⟩

/-- Witness for C2: with `auto_publish` set and nothing pruned, a concrete
job produces `Success (some 42) false` and creates a publication. -/
theorem c2_witness :
    process { sampleRow with auto_publish := true } sampleEnv
      = (.ok (7, .Success (some 42) false),
        { pull_run := true, deleted_prior_errors := true, discover_run := true,
          inserted_errors := [], upserted_specs := true, pruned := true,
          publication_created := true }) :=
  c2_success_publication_policy { sampleRow with auto_publish := true } sampleEnv
    catSample rfl rfl rfl (Or.inr rfl) rfl rfl

/-- Every branch of `processAfterPull` records that discovery ran, keeps the
passed-in pull flag, and never returns `PullFailed`. -/
lemma processAfterPull_effects (row : Row) (env : Env) (pr : Bool) :
    (processAfterPull row env pr).2.pull_run = pr
    ∧ (processAfterPull row env pr).2.discover_run = true
    ∧ (processAfterPull row env pr).1 ≠ .ok (row.id, JobStatus.PullFailed) := by
  unfold processAfterPull
  rcases hd : env.discover_ok
  · rcases hu : utf8Decode env.discover_output <;> simp [hd, hu]
  · rcases hm : (build_merged_catalog row.capture_name env.discover_output
        row.update_only env.mergeCollabs).1 with _ | r
    · simp [hd, hm]
    · rcases r with errors | catalog
      · simp [hd, hm]
      · rcases hp : row.auto_publish
        · simp [hd, hm, hp]
        · rcases hn : decide (env.pruned_specs.length = catalog.spec_count) <;>
            simp at hn <;> simp [hd, hm, hp, hn]

/-- C7: the pull subprocess runs exactly when the three pre-flight checks
pass and the image tag is not the designated local tag (so it is skipped
entirely for the local tag and `PullFailed` is unreachable then); the
discover subprocess runs only when, additionally, the pull was skipped or
succeeded; and `process` returns `PullFailed` exactly when pre-flight
passed, the tag is non-local, and the pull outcome was non-success. -/
theorem c7_pull_policy (row : Row) (env : Env) :
    ((process row env).2.pull_run
      = (row.connector_tag_job_success && (row.protocol == "capture")
          && env.connector_exists && (row.image_tag != LOCAL_IMAGE_TAG)))
    ∧ ((process row env).2.discover_run
      = (row.connector_tag_job_success && (row.protocol == "capture")
          && env.connector_exists
          && ((row.image_tag == LOCAL_IMAGE_TAG) || env.pull_ok)))
    ∧ (((process row env).1 = .ok (row.id, JobStatus.PullFailed))
      ↔ (row.connector_tag_job_success = true ∧ row.protocol = "capture"
          ∧ env.connector_exists = true ∧ row.image_tag ≠ LOCAL_IMAGE_TAG
          ∧ env.pull_ok = false)) := by
  by_cases h1 : row.connector_tag_job_success = true
  case neg =>
    have h1f : row.connector_tag_job_success = false := by
      cases hb : row.connector_tag_job_success
      · rfl
      · exact absurd hb h1
    rw [process_tagFailed row env h1f]
    simp [h1f, noEffects]
  by_cases h2 : row.protocol = "capture"
  case neg =>
    rw [process_wrongProtocol row env h1 h2]
    simp [h1, h2, noEffects]
  by_cases h3 : env.connector_exists = true
  case neg =>
    have h3f : env.connector_exists = false := by
      cases hb : env.connector_exists
      · rfl
      · exact absurd hb h3
    rw [process_imageForbidden row env h1 h2 h3f]
    simp [h1, h2, h3f, noEffects]
  by_cases h5 : row.image_tag = LOCAL_IMAGE_TAG
  case pos =>
    rw [process_reaches_afterPull row env h1 h2 h3 (Or.inl h5)]
    have he := processAfterPull_effects row env (row.image_tag != LOCAL_IMAGE_TAG)
    refine ⟨?_, ?_, ?_⟩
    · rw [he.1]
      simp [h1, h2, h3, h5]
    · rw [he.2.1]
      simp [h1, h2, h3, h5]
    · constructor
      · intro h
        exact absurd h he.2.2
      · rintro ⟨-, -, -, hne, -⟩
        exact absurd h5 hne
  case neg =>
    have hb : (row.image_tag != LOCAL_IMAGE_TAG) = true := by
      simp [bne_iff_ne, h5]
    by_cases h4 : env.pull_ok = true
    case pos =>
      rw [process_reaches_afterPull row env h1 h2 h3 (Or.inr h4)]
      have he := processAfterPull_effects row env (row.image_tag != LOCAL_IMAGE_TAG)
      refine ⟨?_, ?_, ?_⟩
      · rw [he.1]
        simp [h1, h2, h3, hb]
      · rw [he.2.1]
        simp [h1, h2, h3, h4]
      · constructor
        · intro h
          exact absurd h he.2.2
        · rintro ⟨-, -, -, -, hpf⟩
          rw [h4] at hpf
          simp at hpf
    case neg =>
      have h4f : env.pull_ok = false := by
        cases hbk : env.pull_ok
        · rfl
        · exact absurd hbk h4
      have hp : process row env
          = (.ok (row.id, .PullFailed), { noEffects with pull_run := true }) := by
        simp [process, h1, h2, h3, h4f, h5]
      have hbeqf : (row.image_tag == LOCAL_IMAGE_TAG) = false := by
        simp [h5]
      rw [hp]
      refine ⟨?_, ?_, ?_⟩
      · simp [h1, h2, h3, hb, noEffects]
      · simp [h1, h2, h3, h4f, hbeqf, noEffects]
      · simp [h1, h2, h3, h4f, h5]

/-- C8: whenever `build_merged_catalog` reaches its second spec-resolution
call, the collection names it passes there are exactly the target names of
the bindings of the capture returned by `merge_capture` — derived after
the merge, not from the pre-merge discovered bindings. -/
theorem c8_collection_targets_from_merged_capture (capture_name : String)
    (discover_output : List Nat) (update_only : Bool) (c : MergeCollabs)
    (res : Except String (Except (List DraftError) Catalog)) (tr : BuildTrace)
    (h : build_merged_catalog capture_name discover_output update_only c = (res, tr))
    (ts : List String) (mc : CaptureSpec)
    (h1 : tr.collectionResolveNames = some ts) (h2 : tr.mergedCapture = some mc) :
    ts = mc.bindings.map CaptureBinding.target := by
  simp only [build_merged_catalog] at h
  split at h
  · simp only [Prod.mk.injEq] at h
    obtain ⟨-, htr⟩ := h
    subst htr
    simp at h1
  · split at h
    · simp only [Prod.mk.injEq] at h
      obtain ⟨-, htr⟩ := h
      subst htr
      simp at h1
    · split at h
      · simp only [Prod.mk.injEq] at h
        obtain ⟨-, htr⟩ := h
        subst htr
        simp at h1
      · split at h
        · simp only [Prod.mk.injEq] at h
          obtain ⟨-, htr⟩ := h
          subst htr
          simp only [BuildTrace.mk.injEq] at *
          rw [Option.some_inj] at h1 h2
          rw [← h1, ← h2]
        · simp only [Prod.mk.injEq] at h
          obtain ⟨-, htr⟩ := h
          subst htr
          simp only [BuildTrace.mk.injEq] at *
          rw [Option.some_inj] at h1 h2
          rw [← h1, ← h2]

/-- Witness for C8: the sample collaborators reach the collection resolution
with exactly the merged capture's single binding target. -/
theorem c8_witness : ["acct/target"] = mcSample.bindings.map CaptureBinding.target :=
  c8_collection_targets_from_merged_capture "acct/cap" [] false sampleCollabs
    (.ok (.ok catSample)) ⟨some ["acct/cap"], some ["acct/target"], some mcSample⟩
    rfl ["acct/target"] mcSample rfl rfl

/-- The discriminator carried by a serialized tagged record, if any. -/
def headTag : Json → Option String
  | .obj (("type", .str t) :: _) => some t
  | _ => none

/-- C9: every `JobStatus` serializes as a tagged record whose leading
`"type"` field names the variant (camelCased); on `Success`, the
`publication_id` field is present exactly when the id is `some`, and the
`specs_unchanged` field exactly when the flag is `true`. -/
theorem c9_job_status_serialization :
    (∀ s : JobStatus, ∃ t rest, s.toJson = Json.obj (("type", Json.str t) :: rest))
    ∧ (headTag JobStatus.Queued.toJson = some "queued"
        ∧ headTag JobStatus.WrongProtocol.toJson = some "wrongProtocol"
        ∧ headTag JobStatus.TagFailed.toJson = some "tagFailed"
        ∧ headTag JobStatus.ImageForbidden.toJson = some "imageForbidden"
        ∧ headTag JobStatus.PullFailed.toJson = some "pullFailed"
        ∧ headTag JobStatus.DiscoverFailed.toJson = some "discoverFailed"
        ∧ headTag JobStatus.MergeFailed.toJson = some "mergeFailed"
        ∧ ∀ pid u, headTag (JobStatus.Success pid u).toJson = some "success")
    ∧ (∀ u : Bool, ((JobStatus.Success none u).toJson.keys.contains "publication_id") = false)
    ∧ (∀ i : Id, ∀ u : Bool,
        ((JobStatus.Success (some i) u).toJson.keys.contains "publication_id") = true)
    ∧ (∀ pid : Option Id,
        ((JobStatus.Success pid false).toJson.keys.contains "specs_unchanged") = false)
    ∧ (∀ pid : Option Id,
        ((JobStatus.Success pid true).toJson.keys.contains "specs_unchanged") = true) := by
  refine ⟨?_, ?_, ?_, ?_, ?_, ?_⟩
  · intro s
    cases s <;> exact ⟨_, _, rfl⟩
  · exact ⟨rfl, rfl, rfl, rfl, rfl, rfl, rfl, fun pid u => rfl⟩
  · intro u
    cases u <;> rfl
  · intro i u
    cases u <;> rfl
  · intro pid
    cases pid <;> rfl
  · intro pid
    cases pid <;> rfl

end Flow.Discovers
